import Mathlib

/-!
Shallow embedding of the OH-Demo risk-adjustment pipeline
(server/risk-adjustment.js, server/risk-adjustment-agent.js,
server/compliance-agent.js, server/finance-impact-agent.js,
server/orchestrator.js, the /api/simulation handler in server/index.js,
and the query interpreter), together with theorems checking the
specification claims against these definitions.

Modelling conventions:
* JavaScript numbers are embedded as rationals (ℚ); `Math.round` is
  `jsRound` (floor of x + 1/2, which matches the JS round-half-towards
  positive-infinity behaviour on all inputs).
* JavaScript objects used as string-keyed dictionaries are association
  lists with first-match lookup (`lookupD`); keys are unique in the data
  loads the server performs.
* A JS value that can be `null`/`undefined`/`NaN` is an `Option`.
-/

namespace OHDemo

/-- JS `Math.round`: round half towards positive infinity. -/
def jsRound (x : ℚ) : ℤ := ⌊x + 1/2⌋

/-- `Math.round(x * 100) / 100` — currency rounding to two decimals. -/
def round2 (x : ℚ) : ℚ := (jsRound (x * 100) : ℚ) / 100

/-- `Math.round(x * 1000) / 1000` — factor rounding to three decimals. -/
def round3 (x : ℚ) : ℚ := (jsRound (x * 1000) : ℚ) / 1000

/-- Dictionary lookup with a default (JS `dict[k] ?? d` / `dict[k] || d`). -/
def lookupD {α : Type} (dict : List (String × α)) (k : String) (d : α) : α :=
  ((dict.find? (fun p => p.1 == k)).map (fun p => p.2)).getD d

/-- A claim record (fields the embedded functions read). -/
structure Claim where
  claim_id : String
  member_id : String
  claim_type : String
  allowed_amount : ℚ
  deriving DecidableEq, Repr

/-- A member record (fields the embedded functions read).
`member_months = 0` encodes a missing/zero value: every use site in the
source reads `member.member_months || 12`, which treats 0 and undefined
identically. -/
structure Member where
  member_id : String
  age : ℕ
  gender : String
  state : String
  plan_type : String
  risk_score : ℚ
  chronic_condition_flag : Bool
  hcc_codes : List String
  member_months : ℕ
  deriving DecidableEq, Repr

/-- `member.member_months || 12` as a rational. -/
def memberMonthsQ (m : Member) : ℚ := if m.member_months = 0 then 12 else (m.member_months : ℚ)

/-- Claims grouped by member id (the `claimByMember` dictionaries). -/
def ClaimsIndex : Type := List (String × List Claim)

/-! ## risk-adjustment.js -/

/-- `BASE_RATE_PMPM = 900`. -/
def BASE_RATE_PMPM : ℚ := 900

/-- `HCC_WEIGHTS` lookup; `HCC_WEIGHTS[code] || 0` for unknown codes. -/
def hccWeight (code : String) : ℚ :=
  if code = "HCC_18" then 0.32
  else if code = "HCC_85" then 0.45
  else if code = "HCC_96" then 0.29
  else if code = "HCC_108" then 0.38
  else if code = "HCC_19" then 0.14
  else 0

/-- `getAgeBand(age)`. -/
def getAgeBand (age : ℕ) : String :=
  if age < 35 then "18-34"
  else if age < 45 then "35-44"
  else if age < 55 then "45-54"
  else if age < 65 then "55-64"
  else "65+"

/-- `DEMO_RAF_BY_AGE_GENDER[band]?.[gender] ?? 0.5`. -/
def demoFactor (band gender : String) : ℚ :=
  if band = "18-34" then (if gender = "M" then 0.35 else if gender = "F" then 0.42 else 0.5)
  else if band = "35-44" then (if gender = "M" then 0.45 else if gender = "F" then 0.52 else 0.5)
  else if band = "45-54" then (if gender = "M" then 0.62 else if gender = "F" then 0.68 else 0.5)
  else if band = "55-64" then (if gender = "M" then 0.88 else if gender = "F" then 0.92 else 0.5)
  else if band = "65+" then (if gender = "M" then 1.15 else if gender = "F" then 1.22 else 0.5)
  else 0.5

/-- `computeRAF(member, claimsByMember)`: demographic factor plus the sum of
the fixed weights of the coded conditions, clamped to [0.3, 3.0] and rounded
to three decimals.  (The claims index parameter is unused by the source.) -/
def computeRAF (member : Member) (_claimsByMember : ClaimsIndex) : ℚ :=
  let demo := demoFactor (getAgeBand member.age) member.gender
  let hccSum := (member.hcc_codes.map hccWeight).sum
  round3 (max 0.3 (min 3.0 (demo + hccSum)))

/-- A lightweight suspect-HCC record produced by `computeSuspectHCCs`. -/
structure Suspect where
  code : String
  weight : ℚ
  reason : String
  deriving DecidableEq, Repr

/-- `computeSuspectHCCs(member, claimsByMember)`: the single-signal dashboard
heuristic. -/
def computeSuspectHCCs (member : Member) (claimsByMember : ClaimsIndex) : List Suspect :=
  let claims := lookupD claimsByMember member.member_id []
  let hasHCC := fun code => member.hcc_codes.contains code
  let rxTotal := ((claims.filter (fun c => c.claim_type == "RX")).map (fun c => c.allowed_amount)).sum
  let ipTotal := ((claims.filter (fun c => c.claim_type == "IP")).map (fun c => c.allowed_amount)).sum
  let rxCount := (claims.filter (fun c => c.claim_type == "RX")).length
  (if rxTotal > 2000 ∧ ¬ hasHCC "HCC_18" then [⟨"HCC_18", 0.32, "High RX spend"⟩] else []) ++
  (if ipTotal > 15000 ∧ ¬ hasHCC "HCC_85" then [⟨"HCC_85", 0.45, "High IP utilization"⟩] else []) ++
  (if rxCount ≥ 8 ∧ ¬ hasHCC "HCC_19" then [⟨"HCC_19", 0.14, "Multiple RX scripts"⟩] else []) ++
  (if member.risk_score > 0.75 ∧ ¬ hasHCC "HCC_108" then [⟨"HCC_108", 0.38, "Elevated risk score"⟩] else []) ++
  (if member.chronic_condition_flag ∧ ¬ hasHCC "HCC_96" then [⟨"HCC_96", 0.29, "Chronic flag, no COPD"⟩] else [])

/-- `computeRiskAdjRevenue(raf, memberMonths) = raf × BASE_RATE_PMPM × memberMonths`. -/
def computeRiskAdjRevenue (raf : ℚ) (memberMonths : ℚ) : ℚ :=
  raf * BASE_RATE_PMPM * memberMonths

/-! ## risk-adjustment-agent.js -/

/-- The claims summary `getClaimsSummary` derives per invocation. -/
structure Summary where
  rxSpend12m : ℚ
  ipAdmissions : ℕ
  ipSpend : ℚ
  opVisits : ℕ
  chronicMeds : Bool
  multipleRx : Bool
  highCostProcedure : Bool
  rxCount : ℕ
  deriving DecidableEq, Repr

/-- `getClaimsSummary(claims)`. -/
def getClaimsSummary (claims : List Claim) : Summary :=
  let rxClaims := claims.filter (fun c => c.claim_type == "RX")
  let ipClaims := claims.filter (fun c => c.claim_type == "IP")
  let opClaims := claims.filter (fun c => c.claim_type == "OP")
  let rxSpend := (rxClaims.map (fun c => c.allowed_amount)).sum
  let ipSpend := (ipClaims.map (fun c => c.allowed_amount)).sum
  { rxSpend12m := rxSpend
    ipAdmissions := ipClaims.length
    ipSpend := ipSpend
    opVisits := opClaims.length
    chronicMeds := rxClaims.length ≥ 6
    multipleRx := rxClaims.length ≥ 8
    highCostProcedure := ipSpend > 15000 ∨ claims.any (fun c => c.allowed_amount > 10000)
    rxCount := rxClaims.length }

/-- A suspect finding emitted by a Risk-Agent evaluator. -/
structure Finding where
  hcc_code : String
  condition : String
  confidence : ℚ
  evidence : List String
  raf_uplift : ℚ
  revenue_uplift_estimate : ℚ
  deriving DecidableEq, Repr

/-- `evalDiabetes(member, summary, hasHCC)` for HCC_18. -/
def evalDiabetes (member : Member) (summary : Summary) (hasHCC : String → Bool) : Option Finding :=
  if hasHCC "HCC_18" then none else
  let signals :=
    (if summary.rxSpend12m > 2000 then ["High chronic RX spend (12m)"] else []) ++
    (if summary.chronicMeds then ["Multiple chronic medication fills"] else []) ++
    (if member.risk_score ≥ 0.65 then ["Elevated risk score"] else [])
  if signals.length < 2 then none else
  let strength : ℚ := if signals.length = 2 then 0.65 else 0.78
  let dataCompleteness : ℚ := if summary.rxCount > 3 then 0.95 else 0.85
  let confidence := min 0.99 (strength * dataCompleteness)
  some { hcc_code := "HCC_18", condition := "Diabetes"
         confidence := round2 confidence
         evidence := signals
         raf_uplift := hccWeight "HCC_18"
         revenue_uplift_estimate := (jsRound (hccWeight "HCC_18" * BASE_RATE_PMPM * memberMonthsQ member) : ℚ) }

/-- `evalCHF(member, summary, hasHCC)` for HCC_85. -/
def evalCHF (member : Member) (summary : Summary) (hasHCC : String → Bool) : Option Finding :=
  if hasHCC "HCC_85" then none else
  let signals :=
    (if summary.ipAdmissions ≥ 1 then ["Inpatient admission(s) in 12m"] else []) ++
    (if summary.highCostProcedure then ["High-cost procedure flag"] else []) ++
    (if summary.ipSpend > 10000 then ["Significant inpatient utilization"] else [])
  if signals.length < 2 then none else
  let strength : ℚ := if signals.length ≥ 3 then 0.72 else 0.62
  let confidence := min 0.99 (strength * 0.92)
  some { hcc_code := "HCC_85", condition := "CHF"
         confidence := round2 confidence
         evidence := signals
         raf_uplift := hccWeight "HCC_85"
         revenue_uplift_estimate := (jsRound (hccWeight "HCC_85" * BASE_RATE_PMPM * memberMonthsQ member) : ℚ) }

/-- `evalCOPD(member, summary, hasHCC)` for HCC_96. -/
def evalCOPD (member : Member) (summary : Summary) (hasHCC : String → Bool) : Option Finding :=
  if hasHCC "HCC_96" then none else
  let signals :=
    (if member.chronic_condition_flag then ["Chronic condition flag on file"] else []) ++
    (if summary.rxCount ≥ 8 then ["High prescription count (suggests ongoing management)"] else []) ++
    (if summary.opVisits ≥ 6 then ["Frequent outpatient visits"] else [])
  if signals.length < 2 then none else
  let strength : ℚ := 0.58 + ((signals.length : ℚ) - 2) * 0.08
  let confidence := min 0.99 (strength * 0.9)
  some { hcc_code := "HCC_96", condition := "COPD"
         confidence := round2 confidence
         evidence := signals
         raf_uplift := hccWeight "HCC_96"
         revenue_uplift_estimate := (jsRound (hccWeight "HCC_96" * BASE_RATE_PMPM * memberMonthsQ member) : ℚ) }

/-- `evalCKD(member, summary, hasHCC)` for HCC_108. -/
def evalCKD (member : Member) (summary : Summary) (hasHCC : String → Bool) : Option Finding :=
  if hasHCC "HCC_108" then none else
  let signals :=
    (if member.risk_score ≥ 0.75 then ["Elevated risk score"] else []) ++
    (if summary.chronicMeds then ["Chronic medication utilization pattern"] else []) ++
    (if summary.rxSpend12m > 1500 then ["Above-average RX spend"] else [])
  if signals.length < 2 then none else
  let strength : ℚ := 0.6 + ((signals.length : ℚ) - 2) * 0.07
  let confidence := min 0.99 (strength * 0.88)
  some { hcc_code := "HCC_108", condition := "CKD"
         confidence := round2 confidence
         evidence := signals
         raf_uplift := hccWeight "HCC_108"
         revenue_uplift_estimate := (jsRound (hccWeight "HCC_108" * BASE_RATE_PMPM * memberMonthsQ member) : ℚ) }

/-- `evalHypertension(member, summary, hasHCC)` for HCC_19. -/
def evalHypertension (member : Member) (summary : Summary) (hasHCC : String → Bool) : Option Finding :=
  if hasHCC "HCC_19" then none else
  let signals :=
    (if summary.multipleRx then ["Multiple prescription fills"] else []) ++
    (if summary.opVisits ≥ 4 then ["Repeated outpatient visits"] else []) ++
    (if summary.chronicMeds then ["Chronic medication pattern"] else [])
  if signals.length < 2 then none else
  let strength : ℚ := 0.55 + ((signals.length : ℚ) - 2) * 0.1
  let confidence := min 0.99 (strength * 0.9)
  some { hcc_code := "HCC_19", condition := "Hypertension"
         confidence := round2 confidence
         evidence := signals
         raf_uplift := hccWeight "HCC_19"
         revenue_uplift_estimate := (jsRound (hccWeight "HCC_19" * BASE_RATE_PMPM * memberMonthsQ member) : ℚ) }

/-- The Risk Agent output per member. -/
structure RiskOutput where
  member_id : String
  suspect_hccs : List Finding
  overall_commentary : Option String
  deriving DecidableEq, Repr

/-- The two fixed commentary templates of `runAgent`. -/
def commentaryFindings : String :=
  "Member shows utilization patterns consistent with unmanaged chronic disease. Recommend coding review."

def commentaryNoFindings : String :=
  "Elevated risk score with moderate utilization. No sufficient evidence for suspect conditions at this time."

/-- `runAgent(member, claimsByMember)`: runs the five evaluators in order and
collects the findings. -/
def runAgent (member : Member) (claimsByMember : ClaimsIndex) : RiskOutput :=
  let claims := lookupD claimsByMember member.member_id []
  let summary := getClaimsSummary claims
  let hasHCC := fun code => member.hcc_codes.contains code
  let suspect_hccs :=
    ([evalDiabetes member summary hasHCC,
      evalCHF member summary hasHCC,
      evalCOPD member summary hasHCC,
      evalCKD member summary hasHCC,
      evalHypertension member summary hasHCC]).filterMap id
  let overall_commentary : Option String :=
    if suspect_hccs.length > 0 then some commentaryFindings
    else if member.risk_score > 0.7 ∧ claims.length > 5 then some commentaryNoFindings
    else none
  { member_id := member.member_id
    suspect_hccs := suspect_hccs
    overall_commentary := overall_commentary }

/-! ## compliance-agent.js

The `DIAGNOSTIC_PATTERNS` regexes are embedded as decidable scanners over
the character list of the text.  `\w` is `[A-Za-z0-9_]`, `\b` is a
word/non-word transition, `\s` a whitespace character; the `/i` flag is
ASCII case folding.  Each `matchP...` function decides whether the pattern
matches at the current position given whether the previous character was a
word character; `scanAux` tries every position (regex search semantics). -/

/-- JS `\w`. -/
def isWordChar (c : Char) : Bool := c.isAlpha || c.isDigit || c = '_'

/-- JS `\s` restricted to the ASCII whitespace the data can contain. -/
def isSpaceChar (c : Char) : Bool := c = ' ' || c = '\t' || c = '\n' || c = '\r'

/-- Case-insensitive "the text starts with this word" (ASCII folding). -/
def ciStartsWith : List Char → List Char → Bool
  | [], _ => true
  | _ :: _, [] => false
  | p :: ps, c :: cs => (p.toLower == c.toLower) && ciStartsWith ps cs

/-- `\b` immediately after a word character: next char absent or non-word. -/
def boundaryAt : List Char → Bool
  | [] => true
  | c :: _ => !(isWordChar c)

/-- `/\bdiagnos(ed|is|ing)\b/i` at the current position. -/
def matchPDiagnosed (prevWord : Bool) (s : List Char) : Bool :=
  !prevWord &&
    ((ciStartsWith "diagnosed".data s && boundaryAt (s.drop 9)) ||
     (ciStartsWith "diagnosis".data s && boundaryAt (s.drop 9)) ||
     (ciStartsWith "diagnosing".data s && boundaryAt (s.drop 10)))

/-- The condition-name alternation of the second diagnostic pattern. -/
def hasConditionWords : List String :=
  ["diabetes", "chf", "copd", "ckd", "hypertension"]

/-- `/\bhas\s+(diabetes|chf|copd|ckd|hypertension)\b/i` at the current position. -/
def matchPHasCondition (prevWord : Bool) (s : List Char) : Bool :=
  !prevWord && ciStartsWith "has".data s &&
    (let rest := s.drop 3
     let ws := rest.takeWhile isSpaceChar
     decide (ws.length ≥ 1) &&
       (let r2 := rest.drop ws.length
        hasConditionWords.any (fun w =>
          ciStartsWith w.data r2 && boundaryAt (r2.drop w.length))))

/-- `/\bconfirmed\b/i` at the current position. -/
def matchPConfirmed (prevWord : Bool) (s : List Char) : Bool :=
  !prevWord && ciStartsWith "confirmed".data s && boundaryAt (s.drop 9)

/-- `/\bdefinitively\b/i` at the current position. -/
def matchPDefinitively (prevWord : Bool) (s : List Char) : Bool :=
  !prevWord && ciStartsWith "definitively".data s && boundaryAt (s.drop 12)

/-- `/\bICD-?10\b/i` at the current position. -/
def matchPICD10 (prevWord : Bool) (s : List Char) : Bool :=
  !prevWord && ciStartsWith "icd".data s &&
    (let r := s.drop 3
     (ciStartsWith "-10".data r && boundaryAt (r.drop 3)) ||
     (ciStartsWith "10".data r && boundaryAt (r.drop 2)))

/-- `/\b[A-Z][0-9]{2}\.[0-9X]+/` (case sensitive) at the current position. -/
def matchPClinicalCode (prevWord : Bool) (s : List Char) : Bool :=
  !prevWord &&
    (match s with
     | c1 :: c2 :: c3 :: c4 :: c5 :: _ =>
         c1.isUpper && c2.isDigit && c3.isDigit && c4 = '.' && (c5.isDigit || c5 = 'X')
     | _ => false)

/-- Any of the six diagnostic patterns at the current position. -/
def matchAnyDiagnostic (prevWord : Bool) (s : List Char) : Bool :=
  matchPDiagnosed prevWord s || matchPHasCondition prevWord s ||
  matchPConfirmed prevWord s || matchPDefinitively prevWord s ||
  matchPICD10 prevWord s || matchPClinicalCode prevWord s

/-- Regex search: try the position-matcher at every position of the text. -/
def scanAux (f : Bool → List Char → Bool) (prevWord : Bool) : List Char → Bool
  | [] => f prevWord []
  | c :: cs => f prevWord (c :: cs) || scanAux f (isWordChar c) cs

/-- `hasDiagnosticLanguage(text)`: some `DIAGNOSTIC_PATTERNS` regex matches.
(The JS guard returning false for a non-string or empty text coincides with
the scan finding nothing in an empty character list.) -/
def hasDiagnosticLanguage (text : String) : Bool :=
  scanAux matchAnyDiagnostic false text.data

/-- `${h.condition || h.hcc_code}` — JS falls back on an empty condition. -/
def conditionOrCode (h : Finding) : String :=
  if h.condition = "" then h.hcc_code else h.condition

/-- The issues `checkEvidence` pushes for one finding. -/
def findingIssues (h : Finding) : List String :=
  (if h.evidence.length < 2 then ["Insufficient evidence for " ++ conditionOrCode h] else []) ++
  (let combined := String.intercalate " " (h.evidence ++ [h.condition])
   if hasDiagnosticLanguage combined then ["Diagnostic language detected for " ++ conditionOrCode h] else [])

/-- `checkEvidence(riskOutput)`. -/
def checkEvidence (riskOutput : RiskOutput) : List String :=
  ((riskOutput.suspect_hccs.map findingIssues).flatten) ++
  (match riskOutput.overall_commentary with
   | some cmt => if hasDiagnosticLanguage cmt then ["Diagnostic language in commentary"] else []
   | none => [])

/-- The financial-impact record the Finance Agent produces. -/
structure FinancialImpact where
  estimated_revenue_uplift : ℚ
  total_raf_uplift : ℚ
  mlr_improvement_bps : ℤ
  adjusted_mlr : ℚ
  raw_mlr : ℚ
  plan_level_impact : String
  deriving DecidableEq, Repr

/-- The Finance Agent output wrapper. -/
structure FinanceOutput where
  member_id : String
  financial_impact : FinancialImpact
  deriving DecidableEq, Repr

/-- The compliance result record. -/
structure ComplianceResult where
  member_id : String
  compliance_status : String
  notes : List String
  risk_level : String
  deriving DecidableEq, Repr

/-- `runComplianceAgent(riskOutput, financeOutput)`; the second argument is
`none` for the empty object `{}` the orchestrator passes when the Finance
Agent did not run (the optional chain then reads 0). -/
def runComplianceAgent (riskOutput : RiskOutput) (financeOutput : Option FinanceOutput) : ComplianceResult :=
  let evidenceIssues := checkEvidence riskOutput
  let status := if evidenceIssues.length > 0 then "REVIEW_REQUIRED" else "APPROVED"
  let level0 := if evidenceIssues.length > 0 then "MEDIUM" else "LOW"
  let notes :=
    if evidenceIssues.length > 0 then evidenceIssues
    else ["Language compliant", "Evidence thresholds met", "No diagnostic claims detected"]
  let revenueUplift : ℚ := (financeOutput.map (fun f => f.financial_impact.estimated_revenue_uplift)).getD 0
  let level1 := if riskOutput.suspect_hccs.length > 0 ∧ revenueUplift > 10000 then "MEDIUM" else level0
  let level2 := if riskOutput.suspect_hccs.length > 0 ∧ revenueUplift > 25000 then "HIGH" else level1
  { member_id := riskOutput.member_id
    compliance_status := status
    notes := notes
    risk_level := level2 }

/-! ## finance-impact-agent.js -/

/-- The context object of `runFinanceAgent`; `none` fields are absent and
take the destructuring defaults. -/
structure FinContext where
  plan_type : Option String := none
  member_months : Option ℚ := none
  claims_cost : Option ℚ := none
  premium : Option ℚ := none
  current_raf : Option ℚ := none
  base_rate : Option ℚ := none
  deriving DecidableEq, Repr

/-- `runFinanceAgent(riskOutput, context)`.  The `||` in the revenue fold is
JS falsy choice: a zero `revenue_uplift_estimate` falls back to
`raf_uplift × baseRate × member_months`. -/
def runFinanceAgent (riskOutput : RiskOutput) (context : FinContext) : FinanceOutput :=
  let member_months := context.member_months.getD 12
  let claims_cost := context.claims_cost.getD 0
  let premium := context.premium.getD 15000
  let baseRate := context.base_rate.getD BASE_RATE_PMPM
  let totalRafUplift := (riskOutput.suspect_hccs.map (fun h => h.raf_uplift)).sum
  let estimated_revenue_uplift :=
    (riskOutput.suspect_hccs.map (fun h =>
      if h.revenue_uplift_estimate ≠ 0 then h.revenue_uplift_estimate
      else h.raf_uplift * baseRate * member_months)).sum
  let adjustedPremium := premium + estimated_revenue_uplift
  let rawMLR := if premium > 0 then claims_cost / premium else 0
  let adjustedMLR := if adjustedPremium > 0 then claims_cost / adjustedPremium else rawMLR
  let mlr_improvement_bps := jsRound ((adjustedMLR - rawMLR) * 10000)
  let plan_level_impact :=
    if estimated_revenue_uplift ≥ 5000 then "High"
    else if estimated_revenue_uplift ≥ 2000 then "Medium"
    else "Low"
  { member_id := riskOutput.member_id
    financial_impact :=
      { estimated_revenue_uplift := round2 estimated_revenue_uplift
        total_raf_uplift := round3 totalRafUplift
        mlr_improvement_bps := mlr_improvement_bps
        adjusted_mlr := round3 adjustedMLR
        raw_mlr := round3 rawMLR
        plan_level_impact := plan_level_impact } }

/-! ## orchestrator.js -/

/-- A finding after `normalizeSuspectHCCs` renamed `hcc_code` to `hcc`. -/
structure PublicFinding where
  hcc : String
  condition : String
  confidence : ℚ
  evidence : List String
  raf_uplift : ℚ
  revenue_uplift_estimate : ℚ
  deriving DecidableEq, Repr

/-- `normalizeSuspectHCCs(suspect_hccs)`. -/
def normalizeSuspectHCCs (suspect_hccs : List Finding) : List PublicFinding :=
  suspect_hccs.map (fun h =>
    { hcc := h.hcc_code
      condition := h.condition
      confidence := h.confidence
      evidence := h.evidence
      raf_uplift := h.raf_uplift
      revenue_uplift_estimate := h.revenue_uplift_estimate })

/-- The orchestrated output per member. -/
structure OrchestratedOutput where
  member_id : String
  suspect_hccs : List PublicFinding
  financial_impact : Option FinancialImpact
  compliance : ComplianceResult
  executive_summary : Option String
  deriving DecidableEq, Repr

/-- The executive-summary template of the orchestrator.  (The source
interpolates `revenue.toLocaleString()`; the locale formatting of the number
is abstracted by `toString`, which no claim depends on.) -/
def execSummaryText (revenue : ℚ) : String :=
  "Member shows high likelihood of undocumented chronic condition with material revenue impact (est. $"
    ++ toString revenue ++ " uplift). Recommend coding review."

/-- The conditional Finance stage of the orchestrator: runs the Finance
Agent iff the Risk Agent produced at least one finding. -/
def orchFinance (member : Member) (claimsByMember : ClaimsIndex)
    (claims : List Claim) (riskOutput : RiskOutput) : Option FinanceOutput :=
  if riskOutput.suspect_hccs.length > 0 then
    some (runFinanceAgent riskOutput
      { plan_type := some member.plan_type
        member_months := some (memberMonthsQ member)
        claims_cost := some ((claims.map (fun c => c.allowed_amount)).sum)
        premium := some 15000
        current_raf := some (computeRAF member claimsByMember)
        base_rate := none })
  else none

/-- The stages of `runOrchestrator` after the Risk Agent ran, as a function
of the risk output (source lines 32-68): Finance iff findings, Compliance
always, the REVIEW_REQUIRED confidence cap, synthesis. -/
def runOrchestratorFrom (member : Member) (claimsByMember : ClaimsIndex)
    (claims : List Claim) (riskOutput : RiskOutput) : OrchestratedOutput :=
  let financeOutput : Option FinanceOutput := orchFinance member claimsByMember claims riskOutput
  let complianceOutput := runComplianceAgent riskOutput financeOutput
  let cappedHccs :=
    if complianceOutput.compliance_status = "REVIEW_REQUIRED" ∧ riskOutput.suspect_hccs.length > 0 then
      riskOutput.suspect_hccs.map (fun h => { h with confidence := min h.confidence 0.85 })
    else riskOutput.suspect_hccs
  let executive_summary : Option String :=
    match financeOutput with
    | some f => if cappedHccs.length > 0 then some (execSummaryText f.financial_impact.estimated_revenue_uplift)
                else riskOutput.overall_commentary
    | none => riskOutput.overall_commentary
  { member_id := member.member_id
    suspect_hccs := normalizeSuspectHCCs cappedHccs
    financial_impact := financeOutput.map (fun f => f.financial_impact)
    compliance := complianceOutput
    executive_summary := executive_summary }

/-- `runOrchestrator(member, claimsByMember, claims)`. -/
def runOrchestrator (member : Member) (claimsByMember : ClaimsIndex) (claims : List Claim) : OrchestratedOutput :=
  runOrchestratorFrom member claimsByMember claims (runAgent member claimsByMember)

/-! ## server/index.js — the /api/simulation handler

The handler reads the module-level `members`, `memberRAF` and
`memberSuspects` caches; the embedding passes them explicitly.  Request
fields are `Option` (absent fields take the destructuring defaults).
Divisions that can produce a non-finite JS number (NaN/Infinity) are
embedded as `Option ℚ` with `none` for the non-finite case. -/

/-- The caches built at load time (index.js lines 60-64). -/
def buildMemberRAF (members : List Member) (claimByMember : ClaimsIndex) : List (String × ℚ) :=
  members.map (fun m => (m.member_id, computeRAF m claimByMember))

def buildMemberSuspects (members : List Member) (claimByMember : ClaimsIndex) : List (String × List Suspect) :=
  members.map (fun m => (m.member_id, computeSuspectHCCs m claimByMember))

/-- A simulation request body; `none` fields are absent. -/
structure SimRequest where
  risk_threshold : Option ℚ := none
  bronze_pct : Option ℚ := none
  silver_pct : Option ℚ := none
  gold_pct : Option ℚ := none
  close_suspect_pct : Option ℚ := none
  coding_improvement_pct : Option ℚ := none
  deriving DecidableEq, Repr

/-- The simulation response fields the claims are about. -/
structure SimResult where
  risk_threshold : ℚ
  high_risk_count : ℕ
  high_risk_pct : Option ℚ
  expected_mlr : ℚ
  total_projected_cost : ℚ
  plan_mix_bronze : Option ℚ
  plan_mix_silver : Option ℚ
  plan_mix_gold : Option ℚ
  avgRAF : Option ℚ
  total_risk_revenue : ℚ
  risk_adjusted_mlr : ℚ
  mlr_improvement_bps : ℤ
  close_suspect_pct : ℚ
  coding_improvement_pct : ℚ
  deriving DecidableEq, Repr

/-- `baseCostByPlan[plan] || 1`. -/
def planCostMult (plan : String) : ℚ :=
  if plan = "Bronze" then 1 else if plan = "Silver" then 1.4 else if plan = "Gold" then 2 else 1

/-- The plan-mix normalization `b = bronze/total` etc.; `none` when
`total = 0`, where the JS divisions yield NaN (all inputs zero) or an
infinity, never a finite mix. -/
def simPlanMix (bronze_pct silver_pct gold_pct : ℚ) : Option (ℚ × ℚ × ℚ) :=
  let total := bronze_pct + silver_pct + gold_pct
  if total = 0 then none
  else some (bronze_pct / total, silver_pct / total, gold_pct / total)

/-- The projected-cost loop of the handler. -/
def simProjectedCost (members : List Member) (risk_threshold : ℚ) : ℚ :=
  (members.map (fun m =>
    let planCost := planCostMult m.plan_type
    let riskMultiplier : ℚ := if m.risk_score ≥ risk_threshold then 2 else 1
    1200 * planCost * riskMultiplier * (0.9 + m.risk_score * 0.2))).sum

/-- The baseline simulated risk revenue (`memberRAF[id] ?? 0.5`). -/
def simBaselineRiskRevenue (members : List Member) (memberRAF : List (String × ℚ)) : ℚ :=
  (members.map (fun m =>
    computeRiskAdjRevenue (lookupD memberRAF m.member_id 0.5) (memberMonthsQ m))).sum

/-- The per-member closure/coding uplift sum added when a lever is non-zero. -/
def simUplift (members : List Member) (memberSuspects : List (String × List Suspect))
    (close_suspect_pct coding_improvement_pct : ℚ) : ℚ :=
  (members.map (fun m =>
    let suspects := lookupD memberSuspects m.member_id []
    let uplift := (suspects.map (fun x => x.weight)).sum
    let closedUplift := uplift * (close_suspect_pct / 100)
    let codingUplift : ℚ := if m.hcc_codes.length > 0 then 0.05 * (coding_improvement_pct / 100) else 0
    (closedUplift + codingUplift) * BASE_RATE_PMPM * memberMonthsQ m)).sum

/-- `simulatedRiskRevenue` after the conditional uplift branch. -/
def simRiskRevenue (members : List Member) (memberRAF : List (String × ℚ))
    (memberSuspects : List (String × List Suspect)) (close_suspect_pct coding_improvement_pct : ℚ) : ℚ :=
  if close_suspect_pct > 0 ∨ coding_improvement_pct > 0 then
    simBaselineRiskRevenue members memberRAF + simUplift members memberSuspects close_suspect_pct coding_improvement_pct
  else simBaselineRiskRevenue members memberRAF

/-- The uncapped expected MLR of the handler. -/
def simExpectedMLRRaw (members : List Member) (risk_threshold : ℚ) : ℚ :=
  let totalPremium : ℚ := (members.length : ℚ) * 15000
  if totalPremium > 0 then simProjectedCost members risk_threshold / totalPremium else 0.82

/-- The uncapped risk-adjusted MLR of the handler. -/
def simAdjustedMLRRaw (members : List Member) (memberRAF : List (String × ℚ))
    (memberSuspects : List (String × List Suspect)) (risk_threshold close_suspect_pct coding_improvement_pct : ℚ) : ℚ :=
  let totalPremium : ℚ := (members.length : ℚ) * 15000
  let rev := simRiskRevenue members memberRAF memberSuspects close_suspect_pct coding_improvement_pct
  if totalPremium + rev > 0 then simProjectedCost members risk_threshold / (totalPremium + rev)
  else simExpectedMLRRaw members risk_threshold

/-- The `/api/simulation` handler. -/
def simulationHandler (members : List Member) (memberRAF : List (String × ℚ))
    (memberSuspects : List (String × List Suspect)) (req : SimRequest) : SimResult :=
  let risk_threshold := req.risk_threshold.getD 0.7
  let bronze_pct := req.bronze_pct.getD 0.4
  let silver_pct := req.silver_pct.getD 0.35
  let gold_pct := req.gold_pct.getD 0.25
  let close_suspect_pct := req.close_suspect_pct.getD 0
  let coding_improvement_pct := req.coding_improvement_pct.getD 0
  let mix := simPlanMix bronze_pct silver_pct gold_pct
  let highRiskCount := (members.filter (fun m => m.risk_score ≥ risk_threshold)).length
  let projectedCost := simProjectedCost members risk_threshold
  let rev := simRiskRevenue members memberRAF memberSuspects close_suspect_pct coding_improvement_pct
  let expectedMLR := simExpectedMLRRaw members risk_threshold
  let adjustedMLR := simAdjustedMLRRaw members memberRAF memberSuspects risk_threshold close_suspect_pct coding_improvement_pct
  { risk_threshold := risk_threshold
    high_risk_count := highRiskCount
    high_risk_pct :=
      if members.length = 0 then none
      else some (((highRiskCount : ℚ) / (members.length : ℚ)) * 100)
    expected_mlr := min 0.95 (round3 expectedMLR)
    total_projected_cost := round2 projectedCost
    plan_mix_bronze := mix.map (fun t => t.1)
    plan_mix_silver := mix.map (fun t => t.2.1)
    plan_mix_gold := mix.map (fun t => t.2.2)
    avgRAF :=
      if members.length = 0 then none
      else some (round3 ((members.map (fun m => lookupD memberRAF m.member_id 0.5)).sum / (members.length : ℚ)))
    total_risk_revenue := round2 rev
    risk_adjusted_mlr := round3 (min 0.95 adjustedMLR)
    mlr_improvement_bps := jsRound ((adjustedMLR - expectedMLR) * 10000)
    close_suspect_pct := close_suspect_pct
    coding_improvement_pct := coding_improvement_pct }

/-! ## Query Interpreter (query-interpreter.js) -/

/-- JS `toUpperCase` on the character list (ASCII case mapping). -/
def upperStr (s : String) : String := String.mk (s.data.map Char.toUpper)

/-- JS `toLowerCase` on the character list (ASCII case mapping). -/
def lowerStr (s : String) : String := String.mk (s.data.map Char.toLower)

/-- JS `trim`: strip leading and trailing whitespace. -/
def trimStr (s : String) : String :=
  String.mk (((s.data.dropWhile isSpaceChar).reverse.dropWhile isSpaceChar).reverse)

/-- Substring test: JS `String.prototype.includes`. -/
def containsSub (hay needle : List Char) : Bool :=
  match hay with
  | [] => needle.isEmpty
  | _ :: rest => needle.isPrefixOf hay || containsSub rest needle

/-- JS `String.prototype.includes` on `String`. -/
def strIncludes (hay needle : String) : Bool := containsSub hay.data needle.data

/-- `key.replace(' ', '')`: JS `replace` with a string pattern replaces only
the first occurrence. -/
def replaceFirstSpace : List Char → List Char
  | [] => []
  | c :: cs => if c = ' ' then cs else c :: replaceFirstSpace cs

/-- The `stateMap` entries in object-literal insertion order. -/
def stateMapEntries : List (String × String) :=
  [("TEXAS", "TX"), ("NY", "NY"), ("CALIFORNIA", "CA"), ("CA", "CA"),
   ("FLORIDA", "FL"), ("FL", "FL"), ("NEWYORK", "NY"), ("NEW YORK", "NY")]

/-- Leftmost match of `/\b([A-Z]{2})\b/`: two consecutive ASCII uppercase
letters delimited by word boundaries; returns the captured group. -/
def findTwoUpper (prevWord : Bool) : List Char → Option String
  | [] => none
  | c :: cs =>
      let hit : Bool :=
        !prevWord && c.isUpper &&
          (match cs with
           | d :: rest => d.isUpper && boundaryAt rest
           | [] => false)
      if hit then
        match cs with
        | d :: _ => some (String.mk [c, d])
        | [] => none
      else findTwoUpper (isWordChar c) cs

/-- `extractState(text)`: dictionary pass over the upper-cased text, then
the bare two-uppercase-letter regex fallback — also on the upper-cased
text `t`, not the original-case text. -/
def extractState (text : String) : Option String :=
  let t := upperStr text
  match stateMapEntries.find? (fun e =>
    strIncludes t (String.mk (replaceFirstSpace e.1.data)) || strIncludes t e.1) with
  | some e => some e.2
  | none => findTwoUpper false t.data

/-- `PLANS`. -/
def PLANS : List String := ["Bronze", "Silver", "Gold"]

/-- `extractPlan(text)`. -/
def extractPlan (text : String) : Option String :=
  let t := lowerStr text
  PLANS.find? (fun p => strIncludes t (lowerStr p))

/-- Parse a decimal digit list to a number. -/
def digitsToNat (ds : List Char) : ℕ :=
  ds.foldl (fun n c => n * 10 + (c.toNat - '0'.toNat)) 0

/-- The first alternative `(\d+)\s*%` of the percent regex at the current
position: digits, optional whitespace, a percent sign. -/
def matchPctAlt1 (s : List Char) : Option ℕ :=
  let ds := s.takeWhile Char.isDigit
  if ds.length = 0 then none
  else
    let rest := (s.drop ds.length).dropWhile isSpaceChar
    match rest with
    | '%' :: _ => some (digitsToNat ds)
    | _ => none

/-- Leftmost match of `/(\d+)\s*%|percent|percentage/` (case sensitive).
`some (some n)` is a digits match, `some none` a keyword match (whose group
1 is undefined, so the caller parses NaN), `none` no match. -/
def findPercent : List Char → Option (Option ℕ)
  | [] => none
  | c :: cs =>
      match matchPctAlt1 (c :: cs) with
      | some n => some (some n)
      | none =>
          if "percent".data.isPrefixOf (c :: cs) ∨ "percentage".data.isPrefixOf (c :: cs) then
            some none
          else findPercent cs

/-- `extractPercent(text)`: the parsed group of the leftmost match.  `none`
covers both the JS `null` (no match) and `NaN` (keyword-only match). -/
def extractPercent (text : String) : Option ℕ :=
  match findPercent text.data with
  | some (some n) => some n
  | _ => none

/-- The structured intent `interpretQuery` builds. -/
structure ChatIntent where
  state : Option String
  plan_type : Option String
  analysis_type : String
  close_suspect_pct : Option ℕ
  time_window : String
  deriving DecidableEq, Repr

/-- `interpretQuery(userQuestion)`: the ordered keyword classification over
the lower-cased question plus the three extractors on the original text. -/
def interpretQuery (userQuestion : String) : ChatIntent :=
  let q := lowerStr (trimStr userQuestion)
  let analysis_type :=
    if strIncludes q "leak" || strIncludes q "leaking" || strIncludes q "leakage" then "RAF Leakage"
    else if strIncludes q "missing" || strIncludes q "revenue at risk" || strIncludes q "where are we" then "Revenue at Risk"
    else if strIncludes q "close" || strIncludes q "what happens if" || strIncludes q "suspect" then "What-If Closure"
    else if strIncludes q "worst" || strIncludes q "adjusted mlr" || strIncludes q "plans" then "Plan MLR"
    else if strIncludes q "hcc" && (strIncludes q "driv" || strIncludes q "domin") then "HCC Drivers"
    else if strIncludes q "unique" || strIncludes q "texas" then "State Comparison"
    else "General"
  { state := extractState userQuestion
    plan_type := extractPlan userQuestion
    analysis_type := analysis_type
    close_suspect_pct := extractPercent userQuestion
    time_window := "Last 12 months" }

/-- Shared shape of the per-evaluator guarantees: at least two evidence
items, confidence in [0, 1), and no issue for `checkEvidence` to raise. -/
def FindingOK (f : Finding) : Prop :=
  2 ≤ f.evidence.length ∧ 0 ≤ f.confidence ∧ f.confidence < 1 ∧ findingIssues f = []

/-! ## Concrete inputs used to witness the conditional theorems -/

/-- A member whose claims pattern fires the Diabetes and CKD evaluators. -/
def wMember : Member :=
  { member_id := "W1", age := 70, gender := "F", state := "TX", plan_type := "Gold",
    risk_score := 0.8, chronic_condition_flag := false, hcc_codes := [], member_months := 12 }

/-- Six RX claims of 400 each for `wMember`. -/
def wCbm : ClaimsIndex :=
  [("W1",
    [⟨"C1", "W1", "RX", 400⟩, ⟨"C2", "W1", "RX", 400⟩, ⟨"C3", "W1", "RX", 400⟩,
     ⟨"C4", "W1", "RX", 400⟩, ⟨"C5", "W1", "RX", 400⟩, ⟨"C6", "W1", "RX", 400⟩])]

/-- The Diabetes finding `runAgent` emits for `wMember` over `wCbm`. -/
def wFinding : Finding :=
  { hcc_code := "HCC_18", condition := "Diabetes", confidence := 0.74,
    evidence := ["High chronic RX spend (12m)", "Multiple chronic medication fills", "Elevated risk score"],
    raf_uplift := 0.32, revenue_uplift_estimate := 3456 }

/-- A risk output carrying diagnostic language, to witness the
REVIEW_REQUIRED confidence-dampening stage of the orchestrator. -/
def wBadRiskOutput : RiskOutput :=
  { member_id := "W1"
    suspect_hccs :=
      [{ hcc_code := "HCC_18", condition := "Diabetes", confidence := 0.9,
         evidence := ["confirmed case on record", "second corroborating signal"],
         raf_uplift := 0.32, revenue_uplift_estimate := 3456 }]
    overall_commentary := none }

/-- The published (normalized, capped) finding the orchestrator emits for
`wBadRiskOutput`. -/
def wBadPublic : PublicFinding :=
  { hcc := "HCC_18", condition := "Diabetes", confidence := 0.85,
    evidence := ["confirmed case on record", "second corroborating signal"],
    raf_uplift := 0.32, revenue_uplift_estimate := 3456 }

/-! ## Helper lemmas -/

theorem jsRound_mono {x y : ℚ} (h : x ≤ y) : jsRound x ≤ jsRound y :=
  Int.floor_mono (add_le_add_right h _)

theorem round3_mono {x y : ℚ} (h : x ≤ y) : round3 x ≤ round3 y := by
  have h1 : jsRound (x * 1000) ≤ jsRound (y * 1000) :=
    jsRound_mono (mul_le_mul_of_nonneg_right h (by norm_num))
  have h2 : (jsRound (x * 1000) : ℚ) ≤ (jsRound (y * 1000) : ℚ) := by exact_mod_cast h1
  unfold round3
  linarith

theorem round2_mono {x y : ℚ} (h : x ≤ y) : round2 x ≤ round2 y := by
  have h1 : jsRound (x * 100) ≤ jsRound (y * 100) :=
    jsRound_mono (mul_le_mul_of_nonneg_right h (by norm_num))
  have h2 : (jsRound (x * 100) : ℚ) ≤ (jsRound (y * 100) : ℚ) := by exact_mod_cast h1
  unfold round2
  linarith

theorem evalDiabetes_ok (m : Member) (s : Summary) (hh : String → Bool) (f : Finding)
    (h : evalDiabetes m s hh = some f) : FindingOK f := by
  by_cases h18 : hh "HCC_18"
  · simp [evalDiabetes, h18] at h
  · by_cases c1 : s.rxSpend12m > 2000 <;>
    by_cases c2 : s.chronicMeds <;>
    by_cases c3 : m.risk_score ≥ 0.65 <;>
    by_cases c4 : s.rxCount > 3 <;>
    simp [evalDiabetes, h18, c1, c2, c3, c4] at h <;>
    (subst h
     refine ⟨by simp, by norm_num [round2, jsRound, min_def], by norm_num [round2, jsRound, min_def],
       by simp +decide [findingIssues, conditionOrCode]⟩)

theorem evalCHF_ok (m : Member) (s : Summary) (hh : String → Bool) (f : Finding)
    (h : evalCHF m s hh = some f) : FindingOK f := by
  by_cases h85 : hh "HCC_85"
  · simp [evalCHF, h85] at h
  · by_cases c1 : s.ipAdmissions ≥ 1 <;>
    by_cases c2 : s.highCostProcedure <;>
    by_cases c3 : s.ipSpend > 10000 <;>
    simp [evalCHF, h85, c1, c2, c3] at h <;>
    (subst h
     refine ⟨by simp, by norm_num [round2, jsRound, min_def], by norm_num [round2, jsRound, min_def],
       by simp +decide [findingIssues, conditionOrCode]⟩)

theorem evalCOPD_ok (m : Member) (s : Summary) (hh : String → Bool) (f : Finding)
    (h : evalCOPD m s hh = some f) : FindingOK f := by
  by_cases h96 : hh "HCC_96"
  · simp [evalCOPD, h96] at h
  · by_cases c1 : m.chronic_condition_flag <;>
    by_cases c2 : s.rxCount ≥ 8 <;>
    by_cases c3 : s.opVisits ≥ 6 <;>
    simp [evalCOPD, h96, c1, c2, c3] at h <;>
    (subst h
     refine ⟨by simp, by norm_num [round2, jsRound, min_def], by norm_num [round2, jsRound, min_def],
       by simp +decide [findingIssues, conditionOrCode]⟩)

theorem evalCKD_ok (m : Member) (s : Summary) (hh : String → Bool) (f : Finding)
    (h : evalCKD m s hh = some f) : FindingOK f := by
  by_cases h108 : hh "HCC_108"
  · simp [evalCKD, h108] at h
  · by_cases c1 : m.risk_score ≥ 0.75 <;>
    by_cases c2 : s.chronicMeds <;>
    by_cases c3 : s.rxSpend12m > 1500 <;>
    simp [evalCKD, h108, c1, c2, c3] at h <;>
    (subst h
     refine ⟨by simp, by norm_num [round2, jsRound, min_def], by norm_num [round2, jsRound, min_def],
       by simp +decide [findingIssues, conditionOrCode]⟩)

theorem evalHypertension_ok (m : Member) (s : Summary) (hh : String → Bool) (f : Finding)
    (h : evalHypertension m s hh = some f) : FindingOK f := by
  by_cases h19 : hh "HCC_19"
  · simp [evalHypertension, h19] at h
  · by_cases c1 : s.multipleRx <;>
    by_cases c2 : s.opVisits ≥ 4 <;>
    by_cases c3 : s.chronicMeds <;>
    simp [evalHypertension, h19, c1, c2, c3] at h <;>
    (subst h
     refine ⟨by simp, by norm_num [round2, jsRound, min_def], by norm_num [round2, jsRound, min_def],
       by simp +decide [findingIssues, conditionOrCode]⟩)

/-- Every finding `runAgent` emits satisfies the shared guarantees. -/
theorem runAgent_finding_ok (member : Member) (cbm : ClaimsIndex) (f : Finding)
    (hf : f ∈ (runAgent member cbm).suspect_hccs) : FindingOK f := by
  have hf' : f ∈ ([evalDiabetes member (getClaimsSummary (lookupD cbm member.member_id []))
        (fun code => member.hcc_codes.contains code),
      evalCHF member (getClaimsSummary (lookupD cbm member.member_id []))
        (fun code => member.hcc_codes.contains code),
      evalCOPD member (getClaimsSummary (lookupD cbm member.member_id []))
        (fun code => member.hcc_codes.contains code),
      evalCKD member (getClaimsSummary (lookupD cbm member.member_id []))
        (fun code => member.hcc_codes.contains code),
      evalHypertension member (getClaimsSummary (lookupD cbm member.member_id []))
        (fun code => member.hcc_codes.contains code)]).filterMap id := hf
  rcases List.mem_filterMap.mp hf' with ⟨o, ho, hid⟩
  have ho' : o = some f := hid
  simp only [List.mem_cons, List.not_mem_nil, or_false] at ho
  rcases ho with h | h | h | h | h <;> rw [h] at ho'
  · exact evalDiabetes_ok _ _ _ _ ho'
  · exact evalCHF_ok _ _ _ _ ho'
  · exact evalCOPD_ok _ _ _ _ ho'
  · exact evalCKD_ok _ _ _ _ ho'
  · exact evalHypertension_ok _ _ _ _ ho'

/-- The commentary of `runAgent` is nothing or one of the two templates. -/
theorem runAgent_commentary (member : Member) (cbm : ClaimsIndex) :
    (runAgent member cbm).overall_commentary = none
    ∨ (runAgent member cbm).overall_commentary = some commentaryFindings
    ∨ (runAgent member cbm).overall_commentary = some commentaryNoFindings := by
  unfold runAgent
  dsimp only
  split_ifs <;> simp

/-- Over `runAgent` output the compliance scan never finds an issue. -/
theorem checkEvidence_runAgent (member : Member) (cbm : ClaimsIndex) :
    checkEvidence (runAgent member cbm) = [] := by
  unfold checkEvidence
  have h1 : ((runAgent member cbm).suspect_hccs.map findingIssues).flatten = [] := by
    rw [List.flatten_eq_nil_iff]
    intro xs hxs
    rcases List.mem_map.mp hxs with ⟨f, hf, rfl⟩
    exact (runAgent_finding_ok member cbm f hf).2.2.2
  rw [h1]
  rcases runAgent_commentary member cbm with hc | hc | hc <;> rw [hc] <;>
    simp +decide [commentaryFindings, commentaryNoFindings]

theorem memberMonthsQ_nonneg (m : Member) : 0 ≤ memberMonthsQ m := by
  unfold memberMonthsQ
  split
  · norm_num
  · positivity

theorem mem_ite_singleton {α : Type} {c : Prop} [Decidable c] {a x : α}
    (hx : x ∈ (if c then [a] else ([] : List α))) : x = a := by
  split at hx
  · simpa using hx
  · simp at hx

/-- Every lightweight suspect carries one of the fixed non-negative weights. -/
theorem computeSuspectHCCs_weight_nonneg (m : Member) (cbm : ClaimsIndex) :
    ∀ x ∈ computeSuspectHCCs m cbm, 0 ≤ x.weight := by
  intro x hx
  unfold computeSuspectHCCs at hx
  simp only [List.mem_append] at hx
  rcases hx with ((((hx | hx) | hx) | hx) | hx) <;>
    rw [mem_ite_singleton hx] <;> norm_num

/-- Weights looked up in the cache built from `computeSuspectHCCs` are
non-negative. -/
theorem buildMemberSuspects_weight_nonneg (members : List Member) (cbm : ClaimsIndex)
    (id : String) :
    ∀ x ∈ lookupD (buildMemberSuspects members cbm) id [], 0 ≤ x.weight := by
  intro x hx
  unfold lookupD at hx
  cases hfind : (buildMemberSuspects members cbm).find? (fun p => p.1 == id) with
  | none =>
      rw [hfind] at hx
      simp at hx
  | some p =>
      rw [hfind] at hx
      simp only [Option.map_some', Option.getD_some] at hx
      have hp := List.mem_of_find?_eq_some hfind
      unfold buildMemberSuspects at hp
      rcases List.mem_map.mp hp with ⟨m, _, rfl⟩
      exact computeSuspectHCCs_weight_nonneg m cbm x hx

/-- The closure/coding uplift term is non-negative for non-negative levers. -/
theorem simUplift_nonneg (members : List Member) (susp : List (String × List Suspect))
    (p c : ℚ) (hp : 0 ≤ p) (hc : 0 ≤ c)
    (hw : ∀ id, ∀ x ∈ lookupD susp id [], 0 ≤ x.weight) :
    0 ≤ simUplift members susp p c := by
  unfold simUplift
  apply List.sum_nonneg
  intro q hq
  rcases List.mem_map.mp hq with ⟨m, _, rfl⟩
  have huplift : 0 ≤ ((lookupD susp m.member_id []).map (fun x => x.weight)).sum := by
    apply List.sum_nonneg
    intro w hw'
    rcases List.mem_map.mp hw' with ⟨x, hx, rfl⟩
    exact hw _ x hx
  have hmm := memberMonthsQ_nonneg m
  have hcod : (0:ℚ) ≤ (if m.hcc_codes.length > 0 then 0.05 * (c / 100) else 0) := by
    split
    · positivity
    · norm_num
  apply mul_nonneg (mul_nonneg _ (by norm_num [BASE_RATE_PMPM])) hmm
  have hclosed : (0:ℚ) ≤ ((lookupD susp m.member_id []).map (fun x => x.weight)).sum * (p / 100) := by
    positivity
  linarith

/-- The closure/coding uplift term is monotone in the closure lever. -/
theorem simUplift_mono (members : List Member) (susp : List (String × List Suspect))
    (c p1 p2 : ℚ) (h12 : p1 ≤ p2)
    (hw : ∀ id, ∀ x ∈ lookupD susp id [], 0 ≤ x.weight) :
    simUplift members susp p1 c ≤ simUplift members susp p2 c := by
  unfold simUplift
  apply List.sum_le_sum
  intro m _
  have huplift : 0 ≤ ((lookupD susp m.member_id []).map (fun x => x.weight)).sum := by
    apply List.sum_nonneg
    intro w hw'
    rcases List.mem_map.mp hw' with ⟨x, hx, rfl⟩
    exact hw _ x hx
  have hmm := memberMonthsQ_nonneg m
  apply mul_le_mul_of_nonneg_right _ hmm
  apply mul_le_mul_of_nonneg_right _ (by norm_num [BASE_RATE_PMPM])
  have : ((lookupD susp m.member_id []).map (fun x => x.weight)).sum * (p1 / 100)
      ≤ ((lookupD susp m.member_id []).map (fun x => x.weight)).sum * (p2 / 100) := by
    apply mul_le_mul_of_nonneg_left _ huplift
    linarith
  linarith

/-- The simulated risk revenue is monotone in the closure lever. -/
theorem simRiskRevenue_mono (members : List Member) (memberRAF : List (String × ℚ))
    (susp : List (String × List Suspect)) (c p1 p2 : ℚ)
    (hc : 0 ≤ c) (h1 : 0 ≤ p1) (h12 : p1 ≤ p2)
    (hw : ∀ id, ∀ x ∈ lookupD susp id [], 0 ≤ x.weight) :
    simRiskRevenue members memberRAF susp p1 c ≤ simRiskRevenue members memberRAF susp p2 c := by
  unfold simRiskRevenue
  by_cases hb2 : p2 > 0 ∨ c > 0
  · rw [if_pos hb2]
    by_cases hb1 : p1 > 0 ∨ c > 0
    · rw [if_pos hb1]
      have := simUplift_mono members susp c p1 p2 h12 hw
      linarith
    · rw [if_neg hb1]
      have := simUplift_nonneg members susp p2 c (le_trans h1 h12) hc hw
      linarith
  · rw [if_neg hb2]
    have hb1 : ¬ (p1 > 0 ∨ c > 0) := by
      push_neg at hb2 ⊢
      exact ⟨le_trans h12 hb2.1, hb2.2⟩
    rw [if_neg hb1]

/-! ## Claim theorems -/

/-- C4: every suspect finding any Risk-Agent evaluator produces, for any
member and claims input, has confidence at least 0 and strictly below 1 and
carries at least two evidence items. -/
theorem riskAgent_confidence_evidence_spec (member : Member) (cbm : ClaimsIndex) (f : Finding)
    (hf : f ∈ (runAgent member cbm).suspect_hccs) :
    0 ≤ f.confidence ∧ f.confidence < 1 ∧ 2 ≤ f.evidence.length :=
  ⟨(runAgent_finding_ok member cbm f hf).2.1,
   (runAgent_finding_ok member cbm f hf).2.2.1,
   (runAgent_finding_ok member cbm f hf).1⟩

/-- Witness for C4: the Diabetes finding on the concrete member `wMember`. -/
theorem riskAgent_confidence_evidence_witness :
    0 ≤ wFinding.confidence ∧ wFinding.confidence < 1 ∧ 2 ≤ wFinding.evidence.length :=
  riskAgent_confidence_evidence_spec wMember wCbm wFinding (by
    norm_num [runAgent, lookupD, getClaimsSummary, evalDiabetes, evalCHF, evalCOPD, evalCKD,
      evalHypertension, wMember, wCbm, wFinding, round2, jsRound, min_def, memberMonthsQ,
      hccWeight, BASE_RATE_PMPM])

/-- C10: the evidence and narrative strings the Risk Agent emits never match
the Compliance Agent diagnostic-language patterns and every finding carries
at least two evidence items, so within the pipeline `runComplianceAgent`
always returns APPROVED and the REVIEW_REQUIRED confidence-dampening branch
of the orchestrator is unreachable (the published findings are exactly the
normalized uncapped Risk-Agent findings). -/
theorem pipeline_compliance_always_approved (member : Member) (cbm : ClaimsIndex)
    (claims : List Claim) (fin : Option FinanceOutput) :
    checkEvidence (runAgent member cbm) = []
    ∧ (runComplianceAgent (runAgent member cbm) fin).compliance_status = "APPROVED"
    ∧ (runOrchestrator member cbm claims).compliance.compliance_status = "APPROVED"
    ∧ (runOrchestrator member cbm claims).suspect_hccs
        = normalizeSuspectHCCs (runAgent member cbm).suspect_hccs := by
  have hce := checkEvidence_runAgent member cbm
  have happ : ∀ fo : Option FinanceOutput,
      (runComplianceAgent (runAgent member cbm) fo).compliance_status = "APPROVED" := by
    intro fo
    unfold runComplianceAgent
    rw [hce]
    simp
  refine ⟨hce, happ fin, ?_, ?_⟩
  · show (runOrchestratorFrom member cbm claims (runAgent member cbm)).compliance.compliance_status
        = "APPROVED"
    unfold runOrchestratorFrom
    dsimp only
    exact happ _
  · show (runOrchestratorFrom member cbm claims (runAgent member cbm)).suspect_hccs
        = normalizeSuspectHCCs (runAgent member cbm).suspect_hccs
    unfold runOrchestratorFrom
    dsimp only
    rw [if_neg]
    intro hcon
    have h1 := (happ _).symm.trans hcon.1
    exact absurd h1 (by decide)

/-- The orchestrator never changes the number of findings: the published
list has the length of the Risk-Agent list, capped or not. -/
theorem runOrchestratorFrom_suspect_length (member : Member) (cbm : ClaimsIndex)
    (claims : List Claim) (riskOutput : RiskOutput) :
    (runOrchestratorFrom member cbm claims riskOutput).suspect_hccs.length
      = riskOutput.suspect_hccs.length := by
  unfold runOrchestratorFrom
  dsimp only
  rw [normalizeSuspectHCCs, List.length_map]
  split
  · rw [List.length_map]
  · rfl

/-- The published financial impact is the Finance-stage output. -/
theorem runOrchestratorFrom_financial (member : Member) (cbm : ClaimsIndex)
    (claims : List Claim) (riskOutput : RiskOutput) :
    (runOrchestratorFrom member cbm claims riskOutput).financial_impact
      = (orchFinance member cbm claims riskOutput).map (fun f => f.financial_impact) := rfl

/-- C3: the financial impact of an orchestrated output is null exactly when
its suspect-findings list is empty. -/
theorem orchestrator_finance_iff_findings (member : Member) (cbm : ClaimsIndex)
    (claims : List Claim) :
    (runOrchestrator member cbm claims).financial_impact = none
      ↔ (runOrchestrator member cbm claims).suspect_hccs = [] := by
  have hlen : (runOrchestrator member cbm claims).suspect_hccs.length
      = (runAgent member cbm).suspect_hccs.length :=
    runOrchestratorFrom_suspect_length member cbm claims (runAgent member cbm)
  have hfin : (runOrchestrator member cbm claims).financial_impact
      = (orchFinance member cbm claims (runAgent member cbm)).map (fun f => f.financial_impact) :=
    runOrchestratorFrom_financial member cbm claims (runAgent member cbm)
  rw [hfin, ← List.length_eq_zero, hlen]
  unfold orchFinance
  by_cases h : (runAgent member cbm).suspect_hccs.length > 0
  · rw [if_pos h]
    simp only [Option.map_some']
    constructor
    · intro hfalse
      exact absurd hfalse (by simp)
    · intro hzero
      omega
  · rw [if_neg h]
    simp only [Option.map_none']
    constructor
    · intro _
      omega
    · intro _
      trivial

/-- C6: whenever the compliance stage reports REVIEW_REQUIRED and findings
exist, every published finding confidence is at most 0.85, and the
published compliance result is the one computed from the uncapped risk
output (the cap runs after compliance evaluation, which never sees it). -/
theorem orchestrator_review_caps_confidence (member : Member) (cbm : ClaimsIndex)
    (claims : List Claim) (riskOutput : RiskOutput)
    (hst : (runOrchestratorFrom member cbm claims riskOutput).compliance.compliance_status
        = "REVIEW_REQUIRED")
    (hne : (runOrchestratorFrom member cbm claims riskOutput).suspect_hccs ≠ []) :
    (∀ f ∈ (runOrchestratorFrom member cbm claims riskOutput).suspect_hccs, f.confidence ≤ 0.85)
    ∧ (runOrchestratorFrom member cbm claims riskOutput).compliance
        = runComplianceAgent riskOutput (orchFinance member cbm claims riskOutput) := by
  refine ⟨?_, rfl⟩
  intro f hf
  have hst' : (runComplianceAgent riskOutput
      (orchFinance member cbm claims riskOutput)).compliance_status = "REVIEW_REQUIRED" := hst
  have hlen : riskOutput.suspect_hccs.length > 0 := by
    by_contra hzero
    apply hne
    have hnil : riskOutput.suspect_hccs = [] := List.length_eq_zero.mp (by omega)
    unfold runOrchestratorFrom
    dsimp only
    rw [hnil]
    simp [normalizeSuspectHCCs]
  have hcap : (runOrchestratorFrom member cbm claims riskOutput).suspect_hccs
      = normalizeSuspectHCCs (riskOutput.suspect_hccs.map
          (fun h => { h with confidence := min h.confidence 0.85 })) := by
    unfold runOrchestratorFrom
    dsimp only
    rw [if_pos ⟨hst', hlen⟩]
  rw [hcap, normalizeSuspectHCCs, List.map_map] at hf
  rcases List.mem_map.mp hf with ⟨g, hg, rfl⟩
  exact min_le_right _ _

/-- Witness for C6: a risk output whose evidence carries the word
"confirmed" forces REVIEW_REQUIRED, and the published confidence is capped. -/
theorem orchestrator_review_caps_confidence_witness : wBadPublic.confidence ≤ 0.85 := by
  have h := (orchestrator_review_caps_confidence wMember [] [] wBadRiskOutput
    (by decide) (by decide)).1
  apply h
  have hcap : (runOrchestratorFrom wMember [] [] wBadRiskOutput).suspect_hccs
      = normalizeSuspectHCCs (wBadRiskOutput.suspect_hccs.map
          (fun g => { g with confidence := min g.confidence 0.85 })) := by
    unfold runOrchestratorFrom
    dsimp only
    rw [if_pos ⟨by decide, by decide⟩]
  rw [hcap]
  norm_num [normalizeSuspectHCCs, wBadRiskOutput, wBadPublic, min_def]

/-- C5: `computeRAF` is total over well-formed members and returns the
demographic factor plus the sum of the fixed weights of the coded
conditions, clamped to [0.3, 3.0] and rounded to three decimals; in
particular the result always lies in [0.3, 3.0]. -/
theorem computeRAF_spec (member : Member) (cbm : ClaimsIndex) :
    computeRAF member cbm
      = round3 (max 0.3 (min 3.0
          (demoFactor (getAgeBand member.age) member.gender + (member.hcc_codes.map hccWeight).sum)))
    ∧ 0.3 ≤ computeRAF member cbm ∧ computeRAF member cbm ≤ 3.0 := by
  refine ⟨rfl, ?_, ?_⟩
  · have ha : (0.3 : ℚ) ≤ max 0.3 (min 3.0
        (demoFactor (getAgeBand member.age) member.gender + (member.hcc_codes.map hccWeight).sum)) :=
      le_max_left _ _
    have : round3 0.3 ≤ computeRAF member cbm := round3_mono ha
    have h03 : round3 0.3 = 0.3 := by norm_num [round3, jsRound]
    rw [h03] at this
    exact this
  · have hb : max 0.3 (min 3.0
        (demoFactor (getAgeBand member.age) member.gender + (member.hcc_codes.map hccWeight).sum)) ≤ 3.0 :=
      max_le (by norm_num) (min_le_left _ _)
    have : computeRAF member cbm ≤ round3 3.0 := round3_mono hb
    have h3 : round3 3.0 = 3.0 := by norm_num [round3, jsRound]
    rw [h3] at this
    exact this

/-- C1 counterexample: on the question from Scenario F the state fallback
regex runs on the upper-cased text, where the word "if" has become a bare
two-uppercase-letter token, so the extracted state is "IF" — not null as
the claim states. -/
theorem interpretQuery_whatif_cex :
    (interpretQuery "What happens if we close 30% of suspect HCCs?").state = some "IF"
    ∧ (interpretQuery "What happens if we close 30% of suspect HCCs?").state ≠ none := by
  constructor <;> decide

/-- C1 amended: on "What happens if we close 30% of suspect HCCs?" the
interpreter returns analysis category What-If Closure, extracted percentage
30 and no plan, but the two-uppercase-letter fallback matches on the
upper-cased text and yields state "IF". -/
theorem interpretQuery_whatif_spec :
    interpretQuery "What happens if we close 30% of suspect HCCs?"
      = { state := some "IF", plan_type := none, analysis_type := "What-If Closure",
          close_suspect_pct := some 30, time_window := "Last 12 months" } := by
  decide

/-- C2 counterexample: a request whose three plan-mix inputs are all
explicitly 0 divides 0 by 0; no finite proportions are returned — in
particular not the canonical 40/35/25 split. -/
theorem simulation_plan_mix_zero_cex :
    (simulationHandler [] [] []
        { bronze_pct := some 0, silver_pct := some 0, gold_pct := some 0 }).plan_mix_bronze = none
    ∧ (simulationHandler [] [] []
        { bronze_pct := some 0, silver_pct := some 0, gold_pct := some 0 }).plan_mix_silver = none
    ∧ (simulationHandler [] [] []
        { bronze_pct := some 0, silver_pct := some 0, gold_pct := some 0 }).plan_mix_gold = none := by
  refine ⟨?_, ?_, ?_⟩ <;>
    · show (simPlanMix 0 0 0).map _ = none
      norm_num [simPlanMix]

/-- C2 amended: whenever the three plan-mix inputs are non-negative and not
all zero, the returned proportions are non-negative and sum to exactly 1;
the canonical 40/35/25 split appears only as the destructuring default when
the three fields are absent from the request body. -/
theorem simulation_plan_mix_spec (members : List Member) (memberRAF : List (String × ℚ))
    (memberSuspects : List (String × List Suspect)) (req : SimRequest) (b s g : ℚ)
    (hb : 0 ≤ b) (hs : 0 ≤ s) (hg : 0 ≤ g) (hne : b + s + g ≠ 0) :
    (∃ x y z,
      (simulationHandler members memberRAF memberSuspects
          { req with bronze_pct := some b, silver_pct := some s, gold_pct := some g }).plan_mix_bronze = some x
      ∧ (simulationHandler members memberRAF memberSuspects
          { req with bronze_pct := some b, silver_pct := some s, gold_pct := some g }).plan_mix_silver = some y
      ∧ (simulationHandler members memberRAF memberSuspects
          { req with bronze_pct := some b, silver_pct := some s, gold_pct := some g }).plan_mix_gold = some z
      ∧ 0 ≤ x ∧ 0 ≤ y ∧ 0 ≤ z ∧ x + y + z = 1)
    ∧ (simulationHandler members memberRAF memberSuspects
          { req with bronze_pct := none, silver_pct := none, gold_pct := none }).plan_mix_bronze = some 0.4
    ∧ (simulationHandler members memberRAF memberSuspects
          { req with bronze_pct := none, silver_pct := none, gold_pct := none }).plan_mix_silver = some 0.35
    ∧ (simulationHandler members memberRAF memberSuspects
          { req with bronze_pct := none, silver_pct := none, gold_pct := none }).plan_mix_gold = some 0.25 := by
  have htot : (0:ℚ) ≤ b + s + g := by linarith
  have hmix : simPlanMix b s g = some (b / (b + s + g), s / (b + s + g), g / (b + s + g)) := by
    unfold simPlanMix
    rw [if_neg hne]
  refine ⟨⟨b / (b + s + g), s / (b + s + g), g / (b + s + g), ?_, ?_, ?_, ?_, ?_, ?_, ?_⟩, ?_, ?_, ?_⟩
  · show (simPlanMix b s g).map _ = _
    rw [hmix]
    rfl
  · show (simPlanMix b s g).map _ = _
    rw [hmix]
    rfl
  · show (simPlanMix b s g).map _ = _
    rw [hmix]
    rfl
  · exact div_nonneg hb htot
  · exact div_nonneg hs htot
  · exact div_nonneg hg htot
  · rw [div_add_div_same, div_add_div_same]
    exact div_self hne
  · show (simPlanMix 0.4 0.35 0.25).map _ = _
    norm_num [simPlanMix]
  · show (simPlanMix 0.4 0.35 0.25).map _ = _
    norm_num [simPlanMix]
  · show (simPlanMix 0.4 0.35 0.25).map _ = _
    norm_num [simPlanMix]

/-- Witness for C2 (amended): inputs 2, 1, 1 give the mix 1/2, 1/4, 1/4. -/
theorem simulation_plan_mix_witness :
    (0:ℚ) ≤ 2 ∧ (2:ℚ) + 1 + 1 ≠ 0
    ∧ ((∃ x y z,
        (simulationHandler [] [] []
            { bronze_pct := some 2, silver_pct := some 1, gold_pct := some 1 }).plan_mix_bronze = some x
        ∧ (simulationHandler [] [] []
            { bronze_pct := some 2, silver_pct := some 1, gold_pct := some 1 }).plan_mix_silver = some y
        ∧ (simulationHandler [] [] []
            { bronze_pct := some 2, silver_pct := some 1, gold_pct := some 1 }).plan_mix_gold = some z
        ∧ 0 ≤ x ∧ 0 ≤ y ∧ 0 ≤ z ∧ x + y + z = 1)
      ∧ (simulationHandler [] [] []
            { bronze_pct := none, silver_pct := none, gold_pct := none }).plan_mix_bronze = some 0.4
      ∧ (simulationHandler [] [] []
            { bronze_pct := none, silver_pct := none, gold_pct := none }).plan_mix_silver = some 0.35
      ∧ (simulationHandler [] [] []
            { bronze_pct := none, silver_pct := none, gold_pct := none }).plan_mix_gold = some 0.25) :=
  ⟨by norm_num, by norm_num,
    simulation_plan_mix_spec [] [] [] {} 2 1 1 (by norm_num) (by norm_num) (by norm_num) (by norm_num)⟩

/-- C9: with the member snapshot, threshold, plan mix and coding lever
fixed, the simulated total risk revenue is non-strictly increasing in the
suspect-closure percentage; and at closure 0 and coding improvement 0 it is
exactly the rounded baseline simulated risk revenue with no uplift term. -/
theorem simulation_close_monotone_spec (members : List Member) (cbm : ClaimsIndex)
    (memberRAF : List (String × ℚ)) (req : SimRequest) (c p1 p2 : ℚ)
    (hc : 0 ≤ c) (h1 : 0 ≤ p1) (h12 : p1 ≤ p2) :
    (simulationHandler members memberRAF (buildMemberSuspects members cbm)
        { req with close_suspect_pct := some p1, coding_improvement_pct := some c }).total_risk_revenue
      ≤ (simulationHandler members memberRAF (buildMemberSuspects members cbm)
        { req with close_suspect_pct := some p2, coding_improvement_pct := some c }).total_risk_revenue
    ∧ (simulationHandler members memberRAF (buildMemberSuspects members cbm)
        { req with close_suspect_pct := some 0, coding_improvement_pct := some 0 }).total_risk_revenue
      = round2 (simBaselineRiskRevenue members memberRAF) := by
  constructor
  · show round2 (simRiskRevenue members memberRAF (buildMemberSuspects members cbm) p1 c)
        ≤ round2 (simRiskRevenue members memberRAF (buildMemberSuspects members cbm) p2 c)
    exact round2_mono (simRiskRevenue_mono members memberRAF (buildMemberSuspects members cbm)
      c p1 p2 hc h1 h12 (buildMemberSuspects_weight_nonneg members cbm))
  · show round2 (simRiskRevenue members memberRAF (buildMemberSuspects members cbm) 0 0)
        = round2 (simBaselineRiskRevenue members memberRAF)
    unfold simRiskRevenue
    rw [if_neg (by norm_num)]

/-- Witness for C9: one member, coding lever 10, closure levers 0 and 50. -/
theorem simulation_close_monotone_witness :
    (0:ℚ) ≤ 10 ∧ (0:ℚ) ≤ 0 ∧ (0:ℚ) ≤ 50
    ∧ ((simulationHandler [wMember] [("W1", 1.22)] (buildMemberSuspects [wMember] wCbm)
          { close_suspect_pct := some 0, coding_improvement_pct := some 10 }).total_risk_revenue
        ≤ (simulationHandler [wMember] [("W1", 1.22)] (buildMemberSuspects [wMember] wCbm)
          { close_suspect_pct := some 50, coding_improvement_pct := some 10 }).total_risk_revenue
      ∧ (simulationHandler [wMember] [("W1", 1.22)] (buildMemberSuspects [wMember] wCbm)
          { close_suspect_pct := some 0, coding_improvement_pct := some 0 }).total_risk_revenue
        = round2 (simBaselineRiskRevenue [wMember] [("W1", 1.22)])) :=
  ⟨by norm_num, by norm_num, by norm_num,
    simulation_close_monotone_spec [wMember] wCbm [("W1", 1.22)] {} 10 0 50
      (by norm_num) (by norm_num) (by norm_num)⟩

/-- C7: in every simulation result the returned expected and risk-adjusted
MLR fields are capped at 0.95, while the basis-points field is computed
from the uncapped MLR values, so the cap never influences the bps delta. -/
theorem simulation_mlr_cap_spec (members : List Member) (memberRAF : List (String × ℚ))
    (memberSuspects : List (String × List Suspect)) (req : SimRequest) :
    (simulationHandler members memberRAF memberSuspects req).expected_mlr ≤ 0.95
    ∧ (simulationHandler members memberRAF memberSuspects req).risk_adjusted_mlr ≤ 0.95
    ∧ (simulationHandler members memberRAF memberSuspects req).mlr_improvement_bps
        = jsRound ((simAdjustedMLRRaw members memberRAF memberSuspects (req.risk_threshold.getD 0.7)
              (req.close_suspect_pct.getD 0) (req.coding_improvement_pct.getD 0)
            - simExpectedMLRRaw members (req.risk_threshold.getD 0.7)) * 10000) := by
  refine ⟨min_le_left _ _, ?_, rfl⟩
  show round3 (min 0.95 _) ≤ 0.95
  have h1 : round3 (min 0.95 (simAdjustedMLRRaw members memberRAF memberSuspects
      (req.risk_threshold.getD 0.7) (req.close_suspect_pct.getD 0) (req.coding_improvement_pct.getD 0)))
      ≤ round3 0.95 := round3_mono (min_le_left _ _)
  have h2 : round3 0.95 = 0.95 := by norm_num [round3, jsRound]
  rw [h2] at h1
  exact h1

/-- C8: the Finance Agent with an empty findings list returns zero total RAF
uplift, zero estimated revenue uplift, zero MLR-improvement basis points and
impact tier Low rather than an error; and for any input its raw MLR is 0
whenever the context premium is at most 0. -/
theorem runFinanceAgent_empty_spec (riskOutput : RiskOutput) (context : FinContext)
    (hemp : riskOutput.suspect_hccs = []) :
    ((runFinanceAgent riskOutput context).financial_impact.total_raf_uplift = 0
      ∧ (runFinanceAgent riskOutput context).financial_impact.estimated_revenue_uplift = 0
      ∧ (runFinanceAgent riskOutput context).financial_impact.mlr_improvement_bps = 0
      ∧ (runFinanceAgent riskOutput context).financial_impact.plan_level_impact = "Low")
    ∧ ∀ (ro : RiskOutput) (ctx : FinContext), ctx.premium.getD 15000 ≤ 0 →
        (runFinanceAgent ro ctx).financial_impact.raw_mlr = 0 := by
  constructor
  · unfold runFinanceAgent
    rw [hemp]
    simp only [List.map_nil, List.sum_nil]
    by_cases hp : context.premium.getD 15000 > 0
    · simp only [add_zero, hp, if_true]
      norm_num [round3, round2, jsRound]
    · simp only [add_zero, hp, if_false]
      norm_num [round3, round2, jsRound]
  · intro ro ctx hprem
    unfold runFinanceAgent
    have hp : ¬ (ctx.premium.getD 15000 > 0) := not_lt.mpr hprem
    simp only [hp, if_false]
    norm_num [round3, jsRound]

/-- Witness for C8: the Finance Agent on an empty findings list with the
default context, and on a context whose premium is 0. -/
theorem runFinanceAgent_empty_witness :
    ((runFinanceAgent ⟨"W0", [], none⟩ {}).financial_impact.total_raf_uplift = 0
      ∧ (runFinanceAgent ⟨"W0", [], none⟩ {}).financial_impact.estimated_revenue_uplift = 0
      ∧ (runFinanceAgent ⟨"W0", [], none⟩ {}).financial_impact.mlr_improvement_bps = 0
      ∧ (runFinanceAgent ⟨"W0", [], none⟩ {}).financial_impact.plan_level_impact = "Low")
    ∧ (runFinanceAgent ⟨"W0", [], none⟩ { premium := some 0 }).financial_impact.raw_mlr = 0 :=
  ⟨(runFinanceAgent_empty_spec ⟨"W0", [], none⟩ {} rfl).1,
   (runFinanceAgent_empty_spec ⟨"W0", [], none⟩ {} rfl).2 ⟨"W0", [], none⟩
     { premium := some 0 } (by norm_num)⟩

end OHDemo

